import Mathlib

/-!
# Verification of the Daily Journal Planner core (src/journal.py)

Shallow embedding of the persistence and collection-management core of
`journal.py`: the storage codec (`load_entries` / `save_entries`), the
entry operations (`add_entry`, `search_by_date`, `delete_entry`) and the
interactive session (`menu_loop`).

Modelling conventions:
* The on-disk file is abstracted as a `FileState`: either missing,
  unreadable (an I/O error on read), textually malformed (text that
  `json.loads` rejects), or a parsed JSON document.  `json.dumps` /
  `json.loads` are mutually inverse on JSON documents, so the textual
  layer is not modelled separately.
* Python's `Entry` is a dataclass with no runtime type checking, so the
  five fields hold arbitrary JSON values (`Json`), not necessarily
  strings.  `Entry(**item)` succeeds exactly when `item` is an object
  whose key set is exactly the five field names, whatever the values.
* Python dicts built by `json.loads` keep the first-insertion order of
  keys with the last value for a duplicated key; `pyDictKeys` and
  `pyDictGet` model that.
* Python iteration (`for item in data`) is modelled by `jsonIter`:
  a list yields its elements, a string its one-character substrings,
  a dict its keys; numbers, booleans and `None` are not iterable
  (`TypeError`).
* Exceptions are modelled by `Except` / explicit `raised : Bool` flags;
  a filesystem whose writes fail is a `FS` with `writeFails = true`.
-/

/-- JSON values, as produced by `json.loads`.  Numbers are modelled as
integers; no claim depends on numeric values, only on a number not being
a string and not being an object. -/
inductive Json where
  | str (s : String)
  | num (n : Int)
  | bool (b : Bool)
  | null
  | arr (xs : List Json)
  | obj (kvs : List (String × Json))

/-- The five fields of the `Entry` dataclass (journal.py lines 20-26).
Field values are arbitrary JSON values because Python dataclasses do not
check types at construction. -/
structure Entry where
  date : Json
  mood : Json
  goal : Json
  text : Json
  created_at : Json

/-- The dataclass field names, in declaration order. -/
def fieldNames : List String := ["date", "mood", "goal", "text", "created_at"]

/-- Keys of a Python dict built from an association list by repeated
insertion: first-occurrence order, each key once. -/
def pyDictKeys : List (String × Json) → List String
  | [] => []
  | (k, _) :: rest => k :: (pyDictKeys rest).filter (fun k2 => k2 != k)

/-- Lookup in a Python dict built from an association list by repeated
insertion: the last binding of a key wins. -/
def pyDictGet (kvs : List (String × Json)) (k : String) : Option Json :=
  match kvs.reverse.find? (fun p => p.1 == k) with
  | some p => some p.2
  | none => none

/-- `Entry(**item)` (journal.py line 34): succeeds iff `item` is a JSON
object whose keys are exactly the five field names (a missing field is a
missing required argument, an extra field an unexpected keyword argument,
a non-object cannot be splatted with `**`); field values are not
type-checked. -/
def entryOfJson : Json → Option Entry
  | Json.obj kvs =>
    if kvs.all (fun p => fieldNames.contains p.1) then
      match pyDictGet kvs "date", pyDictGet kvs "mood", pyDictGet kvs "goal",
            pyDictGet kvs "text", pyDictGet kvs "created_at" with
      | some d, some m, some g, some t, some c =>
        some { date := d, mood := m, goal := g, text := t, created_at := c }
      | _, _, _, _, _ => none
    else none
  | _ => none

/-- `asdict(e)` (journal.py line 41): the entry as a JSON object with the
five fields in declaration order. -/
def entryToJson (e : Entry) : Json :=
  Json.obj [("date", e.date), ("mood", e.mood), ("goal", e.goal),
            ("text", e.text), ("created_at", e.created_at)]

/-- Python iteration over a parsed JSON value: a list yields its
elements, a string its characters (as one-character strings), a dict its
keys; a number, boolean or `None` raises `TypeError` (`none` here). -/
def jsonIter : Json → Option (List Json)
  | Json.arr xs => some xs
  | Json.str s => some (s.data.map (fun c => Json.str (String.singleton c)))
  | Json.obj kvs => some ((pyDictKeys kvs).map Json.str)
  | _ => none

/-- The list comprehension `[Entry(**item) for item in data]`
(journal.py line 34): all elements must construct, otherwise the whole
comprehension raises. -/
def decodeEntries : List Json → Option (List Entry)
  | [] => some []
  | x :: xs =>
    match entryOfJson x, decodeEntries xs with
    | some e, some es => some (e :: es)
    | _, _ => none

/-- Observable state of the journal file. -/
inductive FileState where
  | missing
  | unreadable
  | malformed
  | content (j : Json)

/-- What `load_entries` yields: the entries, and whether the warning
`Warning: failed to read ...` was printed. -/
structure LoadResult where
  entries : List Entry
  warned : Bool

/-- `load_entries` (journal.py lines 29-37): missing file yields `[]`
without warning; any exception while reading, parsing or constructing
entries is caught, a warning is printed and `[]` returned.  Totality of
this function is the embedding of "never raises to the caller". -/
def load_entries : FileState → LoadResult
  | FileState.missing => { entries := [], warned := false }
  | FileState.unreadable => { entries := [], warned := true }
  | FileState.malformed => { entries := [], warned := true }
  | FileState.content j =>
    match jsonIter j with
    | none => { entries := [], warned := true }
    | some items =>
      match decodeEntries items with
      | some es => { entries := es, warned := false }
      | none => { entries := [], warned := true }

/-- The filesystem as seen through `JOURNAL_FILE`: the file's state and
whether `write_text` raises (a disk error). -/
structure FS where
  file : FileState
  writeFails : Bool

/-- The serialized form `json.dumps([asdict(e) for e in entries])`
(journal.py lines 41-42), as a JSON document. -/
def encodeEntries (es : List Entry) : Json :=
  Json.arr (es.map entryToJson)

/-- `save_entries` (journal.py lines 40-42): overwrites the file with
the full serialized sequence; a filesystem write failure propagates to
the caller as an exception (`Except.error`). -/
def save_entries (es : List Entry) (fs : FS) : Except Unit FS :=
  if fs.writeFails then Except.error ()
  else Except.ok { fs with file := FileState.content (encodeEntries es) }

/-- Python `str.strip()` with no argument: remove leading and trailing
whitespace characters. -/
def pyStrip (s : String) : String :=
  String.mk (((s.data.dropWhile Char.isWhitespace).reverse.dropWhile
    Char.isWhitespace).reverse)

/-- `input("Mood...").strip()` followed by the blank default
(journal.py lines 72-74). -/
def normalizeMood (raw : String) : String :=
  let m := pyStrip raw
  if m = "" then "unspecified" else m

/-- `input("Today's goal...").strip()` followed by the blank default
(journal.py lines 75-77). -/
def normalizeGoal (raw : String) : String :=
  let g := pyStrip raw
  if g = "" then "No specific goal" else g

/-- The entry built by `add_entry` (journal.py lines 71-80) from the raw
mood and goal inputs and the already-validated date, text and timestamp
delivered by `input_date` / `input_multiline` / `datetime.now`. -/
def mkEntry (date moodRaw goalRaw text created : String) : Entry :=
  { date := Json.str date
  , mood := Json.str (normalizeMood moodRaw)
  , goal := Json.str (normalizeGoal goalRaw)
  , text := Json.str text
  , created_at := Json.str created }

/-- Result of a mutating store operation: the in-memory list (already
mutated even if the flush raised), the filesystem, and whether an
exception propagated out of the operation. -/
structure MutR where
  entries : List Entry
  fs : FS
  raised : Bool

/-- `add_entry` (journal.py lines 69-83): builds the entry, appends it
to the in-memory list, then flushes with `save_entries`.  The append
happens before the save, so on a write failure the list is already
mutated and the exception propagates. -/
def add_entry (date moodRaw goalRaw text created : String)
    (es : List Entry) (fs : FS) : MutR :=
  let e := mkEntry date moodRaw goalRaw text created
  let es2 := es ++ [e]
  match save_entries es2 fs with
  | Except.ok fs2 => { entries := es2, fs := fs2, raised := false }
  | Except.error _ => { entries := es2, fs := fs, raised := true }

/-- `[e for e in entries if e.date == date]` (journal.py line 110).
The comparison is Python `==` against a string: true exactly for an
equal string, false for every non-string value. -/
def pyEqStr (v : Json) (d : String) : Bool :=
  match v with
  | Json.str s => s == d
  | _ => false

/-- The filtering core of `search_by_date` (journal.py lines 108-112);
a pure read, it touches neither the list nor the file. -/
def search_by_date (d : String) (es : List Entry) : List Entry :=
  es.filter (fun e => pyEqStr e.date d)

/-- Outcome of the index dispatch of `delete_entry`. -/
inductive DeleteOutcome where
  | cancelled
  | deleted (e : Entry)
  | outOfRange

/-- The index dispatch of `delete_entry` (journal.py lines 129-137),
before the flush: `idx == 0` prints `Delete cancelled.` and returns;
`1 <= idx <= len(entries)` pops the 1-based `idx`-th element; any other
index prints `Invalid entry number.` and returns. -/
def delete_at (idx : Int) (es : List Entry) : DeleteOutcome × List Entry :=
  if idx = 0 then (DeleteOutcome.cancelled, es)
  else if h : 1 ≤ idx ∧ idx ≤ (es.length : Int) then
    let i : Nat := (idx - 1).toNat
    (DeleteOutcome.deleted (es.get ⟨i, by omega⟩), es.take i ++ es.drop (i + 1))
  else (DeleteOutcome.outOfRange, es)

/-- Result of `delete_entry`: the outcome, then the list / filesystem /
raised flag as for any mutating operation. -/
structure DelR where
  outcome : DeleteOutcome
  entries : List Entry
  fs : FS
  raised : Bool

/-- `delete_entry`'s store behaviour for a given index (journal.py
lines 129-137): only a successful pop flushes; cancel and out-of-range
leave both the list and the file untouched.  On a write failure the pop
has already happened and the exception propagates. -/
def delete_entry (idx : Int) (es : List Entry) (fs : FS) : DelR :=
  match delete_at idx es with
  | (DeleteOutcome.deleted e, es2) =>
    match save_entries es2 fs with
    | Except.ok fs2 =>
      { outcome := DeleteOutcome.deleted e, entries := es2, fs := fs2, raised := false }
    | Except.error _ =>
      { outcome := DeleteOutcome.deleted e, entries := es2, fs := fs, raised := true }
  | (DeleteOutcome.cancelled, _) =>
    { outcome := DeleteOutcome.cancelled, entries := es, fs := fs, raised := false }
  | (DeleteOutcome.outOfRange, _) =>
    { outcome := DeleteOutcome.outOfRange, entries := es, fs := fs, raised := false }

/-- Messages printed by the session, abstracted from their text.  Only
the prints the claims talk about are distinguished; entry rendering by
`display_entry` is folded into `listed` / `searchResults`. -/
inductive Msg where
  | loadWarning
  | saved
  | noEntries
  | listed (n : Nat)
  | notFound (d : String)
  | searchResults (n : Nat)
  | deleteCancelled
  | cancelledInvalidInput
  | invalidNumber
  | deletedFrom
  | badChoice
  | goodbye
  | interruptedMsg
  | errorReport
deriving DecidableEq

/-- What the user typed at `Enter entry number to delete`: either text
that `int()` rejects (`ValueError`, caught locally) or an integer. -/
inductive DelInput where
  | notAnInt
  | num (i : Int)
deriving DecidableEq

/-- One menu iteration's worth of user interaction.  `add` carries the
raw mood and goal (stripped inside `add_entry`) and the date, text and
timestamp already produced by the input helpers; `interrupt` is a
`KeyboardInterrupt` arriving at the prompt. -/
inductive Event where
  | add (date moodRaw goalRaw text created : String)
  | view
  | search (d : String)
  | del (inp : DelInput)
  | quit
  | other
  | interrupt

/-- Result of one iteration of the `while` body (journal.py lines
150-166): the state afterwards, the prints, whether an exception escaped
the iteration, and whether choice 5 broke the loop. -/
structure StepR where
  entries : List Entry
  fs : FS
  msgs : List Msg
  raised : Bool
  quitReq : Bool

/-- The prints of `view_entries` (journal.py lines 98-105). -/
def viewMsgs (es : List Entry) : List Msg :=
  if es.isEmpty then [Msg.noEntries] else [Msg.listed es.length]

/-- One iteration of the menu `while` body (journal.py lines 150-166)
on the given event.  `interrupt` is intercepted by `runLoop` before this
function and never reaches it. -/
def stepEvent : Event → List Entry → FS → StepR
  | Event.add d m g t c, es, fs =>
    let r := add_entry d m g t c es fs
    { entries := r.entries, fs := r.fs
    , msgs := if r.raised then [] else [Msg.saved]
    , raised := r.raised, quitReq := false }
  | Event.view, es, fs =>
    { entries := es, fs := fs, msgs := viewMsgs es, raised := false, quitReq := false }
  | Event.search d, es, fs =>
    let found := search_by_date d es
    { entries := es, fs := fs
    , msgs := if found.isEmpty then [Msg.notFound d] else [Msg.searchResults found.length]
    , raised := false, quitReq := false }
  | Event.del inp, es, fs =>
    if es.isEmpty then
      { entries := es, fs := fs, msgs := viewMsgs es, raised := false, quitReq := false }
    else
      match inp with
      | DelInput.notAnInt =>
        { entries := es, fs := fs, msgs := viewMsgs es ++ [Msg.cancelledInvalidInput]
        , raised := false, quitReq := false }
      | DelInput.num i =>
        let r := delete_entry i es fs
        match r.outcome with
        | DeleteOutcome.cancelled =>
          { entries := r.entries, fs := r.fs, msgs := viewMsgs es ++ [Msg.deleteCancelled]
          , raised := false, quitReq := false }
        | DeleteOutcome.outOfRange =>
          { entries := r.entries, fs := r.fs, msgs := viewMsgs es ++ [Msg.invalidNumber]
          , raised := false, quitReq := false }
        | DeleteOutcome.deleted _ =>
          { entries := r.entries, fs := r.fs
          , msgs := viewMsgs es ++ if r.raised then [] else [Msg.deletedFrom]
          , raised := r.raised, quitReq := false }
  | Event.quit, es, fs =>
    { entries := es, fs := fs, msgs := [Msg.goodbye], raised := false, quitReq := true }
  | Event.other, es, fs =>
    { entries := es, fs := fs, msgs := [Msg.badChoice], raised := false, quitReq := false }
  | Event.interrupt, es, fs =>
    { entries := es, fs := fs, msgs := [], raised := false, quitReq := false }

/-- How the `try` of journal.py lines 149-170 was left. -/
inductive ExitKind where
  | quitChosen
  | interrupted
  | errorCaught
deriving DecidableEq

/-- Result of the `try` block: exit kind, state, prints, and the events
never reached because the loop ended first. -/
structure LoopR where
  exit : ExitKind
  entries : List Entry
  fs : FS
  msgs : List Msg
  remaining : List Event

/-- The `try`-wrapped `while True` of journal.py lines 149-170.  The
`try` is outside the loop, so the first exception escaping an iteration
is caught by `except Exception` (printing the error report) and the loop
is over; a `KeyboardInterrupt` at the prompt likewise ends the loop with
its own message.  An exhausted input stream raises `EOFError` at
`input(MENU)`, also caught by `except Exception`. -/
def runLoop : List Event → List Entry → FS → LoopR
  | [], es, fs =>
    { exit := ExitKind.errorCaught, entries := es, fs := fs
    , msgs := [Msg.errorReport], remaining := [] }
  | Event.interrupt :: rest, es, fs =>
    { exit := ExitKind.interrupted, entries := es, fs := fs
    , msgs := [Msg.interruptedMsg], remaining := rest }
  | e :: rest, es, fs =>
    let r := stepEvent e es fs
    if r.raised then
      { exit := ExitKind.errorCaught, entries := r.entries, fs := r.fs
      , msgs := r.msgs ++ [Msg.errorReport], remaining := rest }
    else if r.quitReq then
      { exit := ExitKind.quitChosen, entries := r.entries, fs := r.fs
      , msgs := r.msgs, remaining := rest }
    else
      let l := runLoop rest r.entries r.fs
      { exit := l.exit, entries := l.entries, fs := l.fs
      , msgs := r.msgs ++ l.msgs, remaining := l.remaining }

/-- The `finally` block (journal.py lines 171-176): a best-effort save
whose own failure is swallowed by `except Exception: pass`.  The second
component is the exception escaping the block: always `none`. -/
def finalFlush (es : List Entry) (fs : FS) : FS × Option Unit :=
  match save_entries es fs with
  | Except.ok fs2 => (fs2, none)
  | Except.error _ => (fs, none)

/-- Result of a whole session. -/
structure SessionR where
  exit : ExitKind
  entries : List Entry
  fs : FS
  msgs : List Msg
  remaining : List Event

/-- `menu_loop` (journal.py lines 140-176): load once, run the menu
loop over the user's events, then the final best-effort flush. -/
def menu_loop (evts : List Event) (fs0 : FS) : SessionR :=
  let L := load_entries fs0.file
  let l := runLoop evts L.entries fs0
  let f := finalFlush l.entries l.fs
  { exit := l.exit, entries := l.entries, fs := f.1
  , msgs := (if L.warned then [Msg.loadWarning] else []) ++ l.msgs
  , remaining := l.remaining }

/-- Whether a JSON value is a string (used to state "all five fields
string-typed"). -/
def isStr : Json → Bool
  | Json.str _ => true
  | _ => false

/-- An entry is valid in the sense of the spec data model: all five
fields present and string-typed. -/
def stringTyped (e : Entry) : Bool :=
  isStr e.date && isStr e.mood && isStr e.goal && isStr e.text && isStr e.created_at

/-- A concrete well-formed entry used by the witness theorems. -/
def sampleEntry : Entry :=
  { date := Json.str "2025-01-01", mood := Json.str "happy", goal := Json.str "run"
  , text := Json.str "a good day", created_at := Json.str "2025-01-01T10:00:00" }

/-- A second concrete entry, with a different date. -/
def sampleEntry2 : Entry :=
  { date := Json.str "2025-01-02", mood := Json.str "calm", goal := Json.str "read"
  , text := Json.str "quiet", created_at := Json.str "2025-01-02T09:00:00" }

/-- A third concrete entry, sharing its date with `sampleEntry`. -/
def sampleEntry3 : Entry :=
  { date := Json.str "2025-01-01", mood := Json.str "tired", goal := Json.str "rest"
  , text := Json.str "late night", created_at := Json.str "2025-01-01T23:00:00" }

-- Sanity checks on the codec (concrete executions of the embedding).
example :
    entryOfJson (Json.obj [("date", Json.str "2025-01-01"), ("mood", Json.str "ok"),
      ("goal", Json.str "g"), ("text", Json.str "t"), ("created_at", Json.str "c")]) =
    some { date := Json.str "2025-01-01", mood := Json.str "ok", goal := Json.str "g",
           text := Json.str "t", created_at := Json.str "c" } := rfl

example : entryOfJson (Json.obj [("date", Json.str "d")]) = none := rfl

example : entryOfJson (Json.str "date") = none := rfl

example : load_entries (FileState.content (Json.obj [])) = { entries := [], warned := false } := rfl

example : load_entries (FileState.content (Json.num 3)) = { entries := [], warned := true } := rfl

example : load_entries (FileState.content (Json.str "ab")) = { entries := [], warned := true } := rfl

/-- Decoding inverts encoding on a single entry, whatever the field
values. -/
theorem entryOfJson_entryToJson (e : Entry) : entryOfJson (entryToJson e) = some e := rfl

/-- Decoding inverts encoding on a list of entries. -/
theorem decodeEntries_map_entryToJson (es : List Entry) :
    decodeEntries (es.map entryToJson) = some es := by
  induction es with
  | nil => rfl
  | cons e rest ih =>
    simp [decodeEntries, entryOfJson_entryToJson, ih]

/-- Loading a file that holds the serialization of `es` recovers `es`
exactly, with no warning. -/
theorem load_content_encode (es : List Entry) :
    load_entries (FileState.content (encodeEntries es)) = { entries := es, warned := false } := by
  simp [load_entries, encodeEntries, jsonIter, decodeEntries_map_entryToJson]

/-- The `finally` save: never an escaping exception, file untouched when
the write fails, file overwritten with the serialization otherwise. -/
theorem finalFlush_spec (es : List Entry) (fs : FS) :
    (finalFlush es fs).2 = none ∧
    (finalFlush es fs).1.writeFails = fs.writeFails ∧
    (fs.writeFails = true → (finalFlush es fs).1 = fs) ∧
    (fs.writeFails = false →
      (finalFlush es fs).1.file = FileState.content (encodeEntries es)) := by
  cases hw : fs.writeFails <;> simp [finalFlush, save_entries, hw]

/-- The Python comparison `e.date == d` is true exactly for an equal
string value. -/
theorem pyEqStr_eq_true (v : Json) (d : String) : pyEqStr v d = true ↔ v = Json.str d := by
  cases v <;> simp [pyEqStr]

/-- C1: for every sequence of valid Entry values (all five fields
present, string-typed), `save_entries` followed by `load_entries` on the
resulting file yields a sequence equal to the original in length, order
and every field value. -/
theorem save_load_roundtrip (es : List Entry) (fs : FS)
    (hw : fs.writeFails = false) (_hv : ∀ e ∈ es, stringTyped e = true)
    (fs2 : FS) (hsave : save_entries es fs = Except.ok fs2) :
    load_entries fs2.file = { entries := es, warned := false } := by
  simp only [save_entries, hw, Bool.false_eq_true, if_false, Except.ok.injEq] at hsave
  subst hsave
  exact load_content_encode es

/-- Witness for C1 at a concrete two-entry journal. -/
theorem save_load_roundtrip_witness :
    load_entries (FS.mk (FileState.content (encodeEntries [sampleEntry, sampleEntry2])) false).file =
      { entries := [sampleEntry, sampleEntry2], warned := false } :=
  save_load_roundtrip [sampleEntry, sampleEntry2] (FS.mk FileState.missing false) rfl
    (by decide)
    (FS.mk (FileState.content (encodeEntries [sampleEntry, sampleEntry2])) false) rfl

/-- One failing element makes the whole comprehension fail. -/
theorem decodeEntries_eq_none (items : List Json) (x : Json) (hx : x ∈ items)
    (hfail : entryOfJson x = none) : decodeEntries items = none := by
  induction items with
  | nil => cases hx
  | cons y ys ih =>
    rcases List.mem_cons.mp hx with rfl | hmem
    · simp [decodeEntries, hfail]
    · have h2 := ih hmem
      simp only [decodeEntries, h2]
      cases entryOfJson y <;> rfl

/-- C10: loading is all-or-nothing: if the stored file parses as an
array but any single element fails to construct an Entry, the whole
collection is discarded (well-formed elements included) and the empty
sequence returned, with the warning. -/
theorem load_all_or_nothing (items : List Json)
    (hbad : ∃ x ∈ items, entryOfJson x = none) :
    load_entries (FileState.content (Json.arr items)) = { entries := [], warned := true } := by
  rcases hbad with ⟨x, hx, hfail⟩
  simp [load_entries, jsonIter, decodeEntries_eq_none items x hx hfail]

/-- Witness for C10: one well-formed element followed by one bad one
(`null`, not an object); the well-formed element is discarded too. -/
theorem load_all_or_nothing_witness :
    load_entries (FileState.content (Json.arr [entryToJson sampleEntry, Json.null])) =
      { entries := [], warned := true } :=
  load_all_or_nothing [entryToJson sampleEntry, Json.null]
    ⟨Json.null, by simp, rfl⟩

/-- C2 counterexample: the file content `""` (a JSON string, not an
array — the spec's "wrong shape") loads as the empty sequence with NO
warning: iterating the empty string yields nothing, so the comprehension
succeeds with `[]` and the `except` branch that prints the warning is
never reached.  The claim requires a warning here. -/
theorem load_wrong_shape_silent :
    load_entries (FileState.content (Json.str "")) = { entries := [], warned := false } := rfl

/-- C2 amended: `load_entries` never raises (it is total); a missing
file yields the empty sequence with no warning; an unreadable or
textually malformed file yields the empty sequence with a warning; any
parsed content that is not an array yields the empty sequence, with a
warning except in the degenerate case of a non-array value whose Python
iteration yields no elements (the empty string and the empty object),
which is silently treated as no data. -/
theorem load_never_raises_empty_fallback (fs : FileState) :
    (fs = FileState.missing → load_entries fs = { entries := [], warned := false }) ∧
    (fs = FileState.unreadable ∨ fs = FileState.malformed →
      load_entries fs = { entries := [], warned := true }) ∧
    (∀ j, fs = FileState.content j → (∀ xs, j ≠ Json.arr xs) →
      (load_entries fs).entries = [] ∧
      ((load_entries fs).warned = true ∨ jsonIter j = some [])) := by
  refine ⟨?_, ?_, ?_⟩
  · rintro rfl; rfl
  · rintro (rfl | rfl) <;> rfl
  · rintro j rfl hna
    cases j with
    | str s =>
      obtain ⟨cs⟩ := s
      cases cs with
      | nil => exact ⟨rfl, Or.inr rfl⟩
      | cons c cs2 => exact ⟨rfl, Or.inl rfl⟩
    | num n => exact ⟨rfl, Or.inl rfl⟩
    | bool b => exact ⟨rfl, Or.inl rfl⟩
    | null => exact ⟨rfl, Or.inl rfl⟩
    | arr xs => exact absurd rfl (hna xs)
    | obj kvs =>
      cases kvs with
      | nil => exact ⟨rfl, Or.inr rfl⟩
      | cons kv rest => exact ⟨rfl, Or.inl rfl⟩

/-- Witness for C2 (amended) at a missing file, a malformed file and a
non-array content. -/
theorem load_never_raises_empty_fallback_witness :
    load_entries FileState.missing = { entries := [], warned := false } ∧
    load_entries FileState.malformed = { entries := [], warned := true } ∧
    (load_entries (FileState.content (Json.num 7))).entries = [] :=
  ⟨(load_never_raises_empty_fallback FileState.missing).1 rfl,
   (load_never_raises_empty_fallback FileState.malformed).2.1 (Or.inr rfl),
   ((load_never_raises_empty_fallback (FileState.content (Json.num 7))).2.2 (Json.num 7) rfl
     (fun _ h => Json.noConfusion h)).1⟩

/-- C9 counterexample: a non-blank mood is NOT stored as given —
`add_entry` strips it.  The raw mood `" happy "` is stored as
`"happy"` (and `"happy"` differs from `" happy "`). -/
theorem add_strips_nonblank_mood :
    (mkEntry "2025-01-01" " happy " "gym" "note" "ts").mood = Json.str "happy" ∧
    (("happy" : String) == " happy ") = false := by
  constructor
  · rfl
  · decide

/-- C9 amended: a blank (empty or whitespace-only) mood or goal is
stored as the default `"unspecified"` / `"No specific goal"`; a
non-blank mood or goal is stored with its leading and trailing
whitespace removed — so a value with no surrounding whitespace is
stored exactly as given. -/
theorem add_default_substitution (d m g t c : String) :
    (pyStrip m = "" → (mkEntry d m g t c).mood = Json.str "unspecified") ∧
    (pyStrip g = "" → (mkEntry d m g t c).goal = Json.str "No specific goal") ∧
    (pyStrip m ≠ "" → (mkEntry d m g t c).mood = Json.str (pyStrip m)) ∧
    (pyStrip g ≠ "" → (mkEntry d m g t c).goal = Json.str (pyStrip g)) := by
  refine ⟨?_, ?_, ?_, ?_⟩ <;> intro h <;>
    simp [mkEntry, normalizeMood, normalizeGoal, h]

/-- Witness for C9 (amended): blank mood and goal get the defaults, and
a whitespace-free mood is stored as given. -/
theorem add_default_substitution_witness :
    (mkEntry "2025-01-01" "" "   " "note" "ts").mood = Json.str "unspecified" ∧
    (mkEntry "2025-01-01" "" "   " "note" "ts").goal = Json.str "No specific goal" ∧
    (mkEntry "2025-01-01" "happy" "gym" "note" "ts").mood = Json.str "happy" :=
  ⟨(add_default_substitution "2025-01-01" "" "   " "note" "ts").1 (by decide),
   (add_default_substitution "2025-01-01" "" "   " "note" "ts").2.1 (by decide),
   (add_default_substitution "2025-01-01" "happy" "gym" "note" "ts").2.2.1 (by decide)⟩

/-- C5: `delete_entry 0` is a no-op treated as a cancel, distinct from
an error (collection and file unchanged, nothing raised, outcome
`cancelled` and not `outOfRange`); a negative index or an index above
the length yields the `outOfRange` outcome (`Invalid entry number.`)
and leaves collection and file unchanged, raising nothing. -/
theorem delete_entry_bounds (es : List Entry) (fs : FS) (i : Int) :
    delete_entry 0 es fs =
      { outcome := DeleteOutcome.cancelled, entries := es, fs := fs, raised := false } ∧
    (i < 0 ∨ (es.length : Int) < i →
      delete_entry i es fs =
        { outcome := DeleteOutcome.outOfRange, entries := es, fs := fs, raised := false }) ∧
    DeleteOutcome.cancelled ≠ DeleteOutcome.outOfRange := by
  refine ⟨?_, ?_, ?_⟩
  · simp [delete_entry, delete_at]
  · intro h
    have h0 : ¬ (i = 0) := by omega
    have h1 : ¬ (1 ≤ i ∧ i ≤ (es.length : Int)) := by omega
    simp [delete_entry, delete_at, h0, h1]
  · intro h
    exact DeleteOutcome.noConfusion h

/-- Witness for C5: deleting at position -1 of a one-entry journal. -/
theorem delete_entry_bounds_witness :
    delete_entry (-1) [sampleEntry] (FS.mk FileState.missing false) =
      { outcome := DeleteOutcome.outOfRange, entries := [sampleEntry]
      , fs := FS.mk FileState.missing false, raised := false } :=
  (delete_entry_bounds [sampleEntry] (FS.mk FileState.missing false) (-1)).2.1
    (Or.inl (by decide))

/-- For an in-range index, `delete_at` takes the pop branch. -/
theorem delete_at_in_range (es : List Entry) (idx : Int)
    (h1 : 1 ≤ idx) (h2 : idx ≤ (es.length : Int)) :
    delete_at idx es =
      (DeleteOutcome.deleted (es.get ⟨(idx - 1).toNat, by omega⟩),
       es.take (idx - 1).toNat ++ es.drop ((idx - 1).toNat + 1)) := by
  have h0 : ¬ (idx = 0) := by omega
  simp [delete_at, h0, h1, h2]

/-- C6: for a position within [1, length], `delete_at` removes and
returns the entry at that 1-based position over the current order,
shifting the subsequent entries down by one; in particular on
[E1, E2, E3], position 2 returns E2 and leaves [E1, E3]. -/
theorem delete_at_shifts (es : List Entry) (idx : Int)
    (h1 : 1 ≤ idx) (h2 : idx ≤ (es.length : Int)) :
    (∃ e, (delete_at idx es).1 = DeleteOutcome.deleted e ∧
      es[(idx - 1).toNat]? = some e) ∧
    (delete_at idx es).2.length = es.length - 1 ∧
    (∀ j : Nat, j < (idx - 1).toNat → ((delete_at idx es).2)[j]? = es[j]?) ∧
    (∀ j : Nat, (idx - 1).toNat ≤ j → ((delete_at idx es).2)[j]? = es[j + 1]?) ∧
    (∀ E1 E2 E3 : Entry, delete_at 2 [E1, E2, E3] = (DeleteOutcome.deleted E2, [E1, E3])) := by
  have hi : (idx - 1).toNat < es.length := by omega
  rw [delete_at_in_range es idx h1 h2]
  refine ⟨⟨es.get ⟨(idx - 1).toNat, hi⟩, rfl, ?_⟩, ?_, ?_, ?_, ?_⟩
  · rw [List.getElem?_eq_getElem hi]
    rfl
  · simp
    omega
  · intro j hj
    rw [List.getElem?_append_left (by simp; omega)]
    rw [List.getElem?_take_of_lt hj]
  · intro j hj
    rw [List.getElem?_append_right (by simp; omega)]
    rw [List.getElem?_drop]
    congr 1
    simp
    omega
  · intro E1 E2 E3
    rfl

/-- Witness for C6: deleting position 2 of a three-entry journal. -/
theorem delete_at_shifts_witness :
    delete_at 2 [sampleEntry, sampleEntry2, sampleEntry3] =
      (DeleteOutcome.deleted sampleEntry2, [sampleEntry, sampleEntry3]) :=
  (delete_at_shifts [sampleEntry, sampleEntry2, sampleEntry3] 2
      (by decide) (by decide)).2.2.2.2 sampleEntry sampleEntry2 sampleEntry3

/-- C7: the final best-effort flush at process end never raises: its
escaping-exception slot is always `none`, whether or not the underlying
write fails (a failing write leaves the file as it was; a successful one
rewrites it), so exit is never blocked by a flush failure. -/
theorem final_flush_never_raises (es : List Entry) (fs : FS) :
    (finalFlush es fs).2 = none ∧
    (fs.writeFails = true → (finalFlush es fs).1 = fs) ∧
    (fs.writeFails = false →
      (finalFlush es fs).1.file = FileState.content (encodeEntries es)) :=
  ⟨(finalFlush_spec es fs).1, (finalFlush_spec es fs).2.2.1, (finalFlush_spec es fs).2.2.2⟩

/-- Witness for C7 on a filesystem whose writes fail: the exception slot
is `none` and the file is untouched. -/
theorem final_flush_never_raises_witness :
    (finalFlush [sampleEntry] (FS.mk FileState.missing true)).2 = none ∧
    (finalFlush [sampleEntry] (FS.mk FileState.missing true)).1 =
      FS.mk FileState.missing true :=
  ⟨(final_flush_never_raises [sampleEntry] (FS.mk FileState.missing true)).1,
   (final_flush_never_raises [sampleEntry] (FS.mk FileState.missing true)).2.1 rfl⟩

/-- C4: after a successful `add_entry` (the appended entry at the end)
or a successful in-range `delete_entry`, the file has been flushed:
re-loading it (a fresh process) yields exactly the new in-memory
sequence, with no warning. -/
theorem mutation_durability (d m g t c : String) (es : List Entry) (fs : FS)
    (idx : Int) (hw : fs.writeFails = false) :
    ((add_entry d m g t c es fs).raised = false ∧
     (add_entry d m g t c es fs).entries = es ++ [mkEntry d m g t c] ∧
     load_entries (add_entry d m g t c es fs).fs.file =
       { entries := (add_entry d m g t c es fs).entries, warned := false }) ∧
    (1 ≤ idx → idx ≤ (es.length : Int) →
      (delete_entry idx es fs).raised = false ∧
      load_entries (delete_entry idx es fs).fs.file =
        { entries := (delete_entry idx es fs).entries, warned := false }) := by
  constructor
  · refine ⟨?_, ?_, ?_⟩ <;> simp [add_entry, save_entries, hw, load_content_encode]
  · intro h1 h2
    rw [delete_entry, delete_at_in_range es idx h1 h2]
    refine ⟨?_, ?_⟩ <;> simp [save_entries, hw, load_content_encode]

/-- Witness for C4: one add and one delete on a concrete journal with a
working filesystem. -/
theorem mutation_durability_witness :
    load_entries (add_entry "2025-01-02" "calm" "read" "note" "ts" [sampleEntry]
        (FS.mk FileState.missing false)).fs.file =
      { entries := (add_entry "2025-01-02" "calm" "read" "note" "ts" [sampleEntry]
          (FS.mk FileState.missing false)).entries, warned := false } ∧
    (delete_entry 1 [sampleEntry] (FS.mk FileState.missing false)).raised = false :=
  ⟨(mutation_durability "2025-01-02" "calm" "read" "note" "ts" [sampleEntry]
      (FS.mk FileState.missing false) 1 rfl).1.2.2,
   ((mutation_durability "2025-01-02" "calm" "read" "note" "ts" [sampleEntry]
      (FS.mk FileState.missing false) 1 rfl).2 (by decide) (by decide)).1⟩

/-- C8: `search_by_date` returns exactly the subsequence of entries
whose date equals the given string — it is a sublist of the collection
(relative order preserved), every returned entry matches, every matching
sublist is inside it (nothing is missed), it is empty when nothing
matches, on the spec's three-entry example it returns the 1st and 3rd
entries in order, and the search menu step changes neither the
collection nor the file (pure read, no flush). -/
theorem find_by_date_spec (dStr : String) (es : List Entry) (fs : FS) :
    (search_by_date dStr es).Sublist es ∧
    (∀ e ∈ search_by_date dStr es, e.date = Json.str dStr) ∧
    (∀ t : List Entry, t.Sublist es → (∀ e ∈ t, e.date = Json.str dStr) →
      t.Sublist (search_by_date dStr es)) ∧
    ((∀ e ∈ es, e.date ≠ Json.str dStr) → search_by_date dStr es = []) ∧
    (∀ e1 e2 e3 : Entry, e1.date = Json.str dStr → e2.date ≠ Json.str dStr →
      e3.date = Json.str dStr → search_by_date dStr [e1, e2, e3] = [e1, e3]) ∧
    (stepEvent (Event.search dStr) es fs).entries = es ∧
    (stepEvent (Event.search dStr) es fs).fs = fs := by
  refine ⟨List.filter_sublist es, ?_, ?_, ?_, ?_, rfl, rfl⟩
  · intro e he
    have h2 : e ∈ es.filter (fun x => pyEqStr x.date dStr) := he
    have hb := (List.mem_filter.mp h2).2
    exact (pyEqStr_eq_true e.date dStr).mp hb
  · intro t hsub hall
    have ht : t.filter (fun e => pyEqStr e.date dStr) = t :=
      List.filter_eq_self.mpr (fun e he => (pyEqStr_eq_true e.date dStr).mpr (hall e he))
    have hf := List.Sublist.filter (fun e => pyEqStr e.date dStr) hsub
    rw [ht] at hf
    exact hf
  · intro hnone
    refine List.filter_eq_nil_iff.mpr ?_
    intro e he hb
    exact hnone e he ((pyEqStr_eq_true e.date dStr).mp hb)
  · intro e1 e2 e3 h1 h2 h3
    have b1 : pyEqStr e1.date dStr = true := (pyEqStr_eq_true e1.date dStr).mpr h1
    have b2 : pyEqStr e2.date dStr = false := by
      cases hb : pyEqStr e2.date dStr
      · rfl
      · exact absurd ((pyEqStr_eq_true e2.date dStr).mp hb) h2
    have b3 : pyEqStr e3.date dStr = true := (pyEqStr_eq_true e3.date dStr).mpr h3
    simp [search_by_date, List.filter, b1, b2, b3]

/-- Witness for C8 on the spec's example dates: entries dated
2025-01-01, 2025-01-02, 2025-01-01; searching 2025-01-01 returns the
1st and 3rd in order. -/
theorem find_by_date_spec_witness :
    search_by_date "2025-01-01" [sampleEntry, sampleEntry2, sampleEntry3] =
      [sampleEntry, sampleEntry3] :=
  (find_by_date_spec "2025-01-01" [sampleEntry, sampleEntry2, sampleEntry3]
      (FS.mk FileState.missing false)).2.2.2.2.1 sampleEntry sampleEntry2 sampleEntry3
    rfl (by intro h; exact absurd (Json.str.inj h) (by decide)) rfl

/-- C3 counterexample: the `try` of `menu_loop` wraps the whole `while`
loop, not one iteration.  With a failing disk, an add whose flush raises
is caught and reported, but the loop is OVER: the following quit
iteration never runs (it is left in `remaining`, no goodbye message is
printed) and the session ends through the error handler — the claim's
"continues the loop with the next menu iteration" and "terminates only
via explicit quit or interruption" are both false here. -/
theorem session_stops_on_midloop_error :
    (menu_loop [Event.add "2025-01-01" "ok" "gym" "note" "ts", Event.quit]
        (FS.mk FileState.missing true)).exit = ExitKind.errorCaught ∧
    (menu_loop [Event.add "2025-01-01" "ok" "gym" "note" "ts", Event.quit]
        (FS.mk FileState.missing true)).remaining = [Event.quit] ∧
    (menu_loop [Event.add "2025-01-01" "ok" "gym" "note" "ts", Event.quit]
        (FS.mk FileState.missing true)).msgs = [Msg.errorReport] :=
  ⟨rfl, rfl, rfl⟩

/-- C3 amended: any error raised during a menu iteration (e.g. an I/O
write error out of a mutating flush) is caught at top level and reported
with a printed message, but the session then ENDS the loop: the
remaining menu iterations are never executed and the process proceeds to
the final best-effort flush and exits.  The process never dies of an
unhandled exception, but it can terminate through a caught mid-loop
failure, not only via quit or interruption. -/
theorem session_error_caught_ends_loop (e : Event) (rest : List Event) (fs : FS)
    (hr : (stepEvent e (load_entries fs.file).entries fs).raised = true)
    (hni : e ≠ Event.interrupt) :
    (menu_loop (e :: rest) fs).exit = ExitKind.errorCaught ∧
    Msg.errorReport ∈ (menu_loop (e :: rest) fs).msgs ∧
    (menu_loop (e :: rest) fs).remaining = rest := by
  cases e <;> first
    | exact absurd rfl hni
    | (refine ⟨?_, ?_, ?_⟩ <;> simp [menu_loop, runLoop, hr])

/-- Witness for C3 (amended): a failing-disk add is caught, reported,
and the view iteration after it never runs. -/
theorem session_error_caught_ends_loop_witness :
    (menu_loop [Event.add "2025-01-01" "ok" "gym" "note" "ts", Event.view]
        (FS.mk FileState.missing true)).exit = ExitKind.errorCaught ∧
    Msg.errorReport ∈ (menu_loop [Event.add "2025-01-01" "ok" "gym" "note" "ts", Event.view]
        (FS.mk FileState.missing true)).msgs :=
  ⟨(session_error_caught_ends_loop (Event.add "2025-01-01" "ok" "gym" "note" "ts")
      [Event.view] (FS.mk FileState.missing true) rfl (fun h => Event.noConfusion h)).1,
   (session_error_caught_ends_loop (Event.add "2025-01-01" "ok" "gym" "note" "ts")
      [Event.view] (FS.mk FileState.missing true) rfl (fun h => Event.noConfusion h)).2.1⟩
